import Mathlib

/-!
Shallow embedding of the PDF download form submission handler implemented in
js/pdf-submit.js. The embedding covers: the pdf-key inference from the page
path (inferKeyFromPath), the key resolution against the trigger controls
data-pdf attribute and its dataset write-back, payload assembly and the
required-field validation, response handling (error-message selection from a
JSON error body, filename resolution from the Content-Disposition header via
the regex with alternatives filename\*=UTF-8 plus two apostrophes plus (.+)
and filename="?(.+?)"?$, and percent decoding), and the observable UI
effects of one run of the handler (final status message and its styling,
whether a request was issued, the triggered download filename, form reset,
the delayed modal close, and the submit-control disabled flag).
-/

namespace PdfSubmit

/-- The apostrophe character (code point 39), kept out of string literals. -/
def apos : Char := Char.ofNat 39

/-- Whitespace as stripped by the JavaScript trim method: the ECMA-262
WhiteSpace set (tab, line feed, vertical tab, form feed, carriage return,
space, no-break space, ogham space mark, the en-quad through hair-space
range, narrow no-break space, medium mathematical space, ideographic space,
and the byte-order mark) together with the LineTerminator code points (line
separator and paragraph separator). -/
def wsChar (c : Char) : Bool :=
  c == ' ' || c == Char.ofNat 9 || c == Char.ofNat 10 || c == Char.ofNat 11 ||
  c == Char.ofNat 12 || c == Char.ofNat 13 || c == Char.ofNat 160 ||
  c == Char.ofNat 5760 || c == Char.ofNat 8192 || c == Char.ofNat 8193 ||
  c == Char.ofNat 8194 || c == Char.ofNat 8195 || c == Char.ofNat 8196 ||
  c == Char.ofNat 8197 || c == Char.ofNat 8198 || c == Char.ofNat 8199 ||
  c == Char.ofNat 8200 || c == Char.ofNat 8201 || c == Char.ofNat 8202 ||
  c == Char.ofNat 8232 || c == Char.ofNat 8233 || c == Char.ofNat 8239 ||
  c == Char.ofNat 8287 || c == Char.ofNat 12288 || c == Char.ofNat 65279

/-- Model of the JavaScript trim method: strip whitespace at both ends. -/
def jsTrim (s : String) : String :=
  String.mk (((s.data.dropWhile wsChar).reverse.dropWhile wsChar).reverse)

/-- A form-field value as read by the handler: (fd.get(n) or empty
string).toString().trim(), where fd.get yields null for a missing control. -/
def getField (o : Option String) : String := jsTrim (o.getD "")

/-- Boolean prefix test on char lists; models the anchored literal part of
the regexes used in the handler. -/
def litPref : List Char → List Char → Bool
  | [], _ => true
  | _ :: _, [] => false
  | a :: as, b :: bs => a == b && litPref as bs

/-- location.pathname.split with slash, then pop: the part after the last
slash (the whole string when no slash occurs). -/
def lastSegment (cs : List Char) : List Char :=
  (cs.reverse.takeWhile (fun c => !(c == '/'))).reverse

/-- Strip one trailing ".html", case-insensitively, as the replace with the
anchored case-insensitive regex does. -/
def stripHtmlSuffix (cs : List Char) : List Char :=
  if (cs.reverse.take 5).reverse.map Char.toLower = ['.', 'h', 't', 'm', 'l'] then
    (cs.reverse.drop 5).reverse
  else cs

/-- Strip one occurrence of a literal prefix, as replace with an anchored
literal regex does. -/
def dropLit (lit cs : List Char) : List Char :=
  if litPref lit cs then cs.drop lit.length else cs

/-- inferKeyFromPath from js/pdf-submit.js: take the last path segment,
strip a trailing ".html" (case-insensitive), then strip a leading "series-"
and then a leading "page-". -/
def inferKeyFromPath (pathname : String) : String :=
  let p := lastSegment pathname.data
  let base := stripHtmlSuffix p
  String.mk (dropLit "page-".data (dropLit "series-".data base))

/-- JavaScript truthiness of an optional string attribute: an absent
attribute and the empty string are both falsy. -/
def isTruthy : Option String → Bool
  | none => false
  | some s => !(s == "")

/-- The pdf-key resolution in the submit handler: the data-pdf attribute of
the trigger control when truthy, otherwise the inferred key. -/
def resolvePdfKey (dataPdf : Option String) (pathname : String) : String :=
  match dataPdf with
  | some k => if k = "" then inferKeyFromPath pathname else k
  | none => inferKeyFromPath pathname

/-- Value of a hex digit, accepting both cases. -/
def hexVal (c : Char) : Option Nat :=
  if '0' ≤ c ∧ c ≤ '9' then some (c.toNat - 48)
  else if 'A' ≤ c ∧ c ≤ 'F' then some (c.toNat - 55)
  else if 'a' ≤ c ∧ c ≤ 'f' then some (c.toNat - 87)
  else none

/-- A UTF-8 continuation byte written as a percent escape: its low six bits,
or none when the two hex digits do not form a byte in the range 128..191. -/
def contBits (h l : Char) : Option Nat :=
  match hexVal h, hexVal l with
  | some hv, some lv =>
    let b := 16 * hv + lv
    if 128 ≤ b ∧ b ≤ 191 then some (b - 128) else none
  | _, _ => none

/-- One percent escape sequence at the start of the list (the characters
after the percent sign): the decoded character and the remaining input.
Percent escapes are decoded as UTF-8 (a lead byte is followed by the
required number of escaped continuation bytes); none models a thrown
URIError (malformed escape, bad continuation, overlong or surrogate or
out-of-range sequence). -/
def decodeEscape : List Char → Option (Char × List Char)
  | h1 :: l1 :: rest1 =>
    match hexVal h1, hexVal l1 with
    | some hv, some lv =>
      let b := 16 * hv + lv
      if b < 128 then some (Char.ofNat b, rest1)
      else if 194 ≤ b ∧ b ≤ 223 then
        match rest1 with
        | p2 :: h2 :: l2 :: rest2 =>
          if p2 = '%' then
            match contBits h2 l2 with
            | some c1 => some (Char.ofNat ((b - 192) * 64 + c1), rest2)
            | none => none
          else none
        | _ => none
      else if 224 ≤ b ∧ b ≤ 239 then
        match rest1 with
        | p2 :: h2 :: l2 :: p3 :: h3 :: l3 :: rest3 =>
          if p2 = '%' ∧ p3 = '%' then
            match contBits h2 l2, contBits h3 l3 with
            | some c1, some c2 =>
              let cp := (b - 224) * 4096 + c1 * 64 + c2
              if 2048 ≤ cp ∧ ¬ (55296 ≤ cp ∧ cp ≤ 57343) then
                some (Char.ofNat cp, rest3)
              else none
            | _, _ => none
          else none
        | _ => none
      else if 240 ≤ b ∧ b ≤ 244 then
        match rest1 with
        | p2 :: h2 :: l2 :: p3 :: h3 :: l3 :: p4 :: h4 :: l4 :: rest4 =>
          if p2 = '%' ∧ p3 = '%' ∧ p4 = '%' then
            match contBits h2 l2, contBits h3 l3, contBits h4 l4 with
            | some c1, some c2, some c3 =>
              let cp := (b - 240) * 262144 + c1 * 4096 + c2 * 64 + c3
              if 65536 ≤ cp ∧ cp ≤ 1114111 then
                some (Char.ofNat cp, rest4)
              else none
            | _, _, _ => none
          else none
        | _ => none
      else none
    | _, _ => none
  | _ => none

/-- Model of decodeURIComponent (the ECMA-262 Decode operation): percent
escapes are decoded as UTF-8 sequences, other characters pass through
unchanged; none models a thrown URIError. The first argument is fuel for
structural recursion; every step consumes at least one input character, so
any fuel at least the input length gives the decode result. -/
def decodeChars : Nat → List Char → Option (List Char)
  | _, [] => some []
  | 0, _ :: _ => none
  | fuel + 1, c :: rest =>
    if c = '%' then
      match decodeEscape rest with
      | some (d, rest2) => (decodeChars fuel rest2).map (d :: ·)
      | none => none
    else (decodeChars fuel rest).map (c :: ·)

/-- decodeURIComponent on strings; none models a thrown URIError. -/
def decodeURIComponent (s : String) : Option String :=
  (decodeChars s.data.length s.data).map String.mk

/-- The dot of the filename regex: any character except a line terminator. -/
def dotChar (c : Char) : Bool :=
  !(c == Char.ofNat 10) && !(c == Char.ofNat 13) &&
  !(c == Char.ofNat 8232) && !(c == Char.ofNat 8233)

/-- The literal of the first regex alternative: filename*=UTF-8 followed by
two apostrophes. -/
def extLit : List Char :=
  ['f', 'i', 'l', 'e', 'n', 'a', 'm', 'e', '*', '=', 'U', 'T', 'F', '-', '8', apos, apos]

/-- The literal of the second regex alternative: filename= . -/
def plainLit : List Char := ['f', 'i', 'l', 'e', 'n', 'a', 'm', 'e', '=']

/-- First alternative of the filename regex tried at a fixed position: the
extended-form literal, then a greedy dot-plus capture, which runs to the end
of the string or the first line terminator and must be non-empty. -/
def matchExt (cs : List Char) : Option (List Char) :=
  if litPref extLit cs then
    let g := (cs.drop extLit.length).takeWhile dotChar
    if g.isEmpty then none else some g
  else none

/-- The lazy capture (.+?) followed by an optional quote and the end anchor:
the shortest non-empty dot-only prefix whose remaining suffix is empty or a
single quote. -/
def lazyBody (t : List Char) : Option (List Char) :=
  if t.isEmpty then none
  else if 2 ≤ t.length ∧ t.getLastD ' ' = '"' then
    if t.dropLast.all dotChar then some t.dropLast else none
  else if t.all dotChar then some t else none

/-- Second alternative of the filename regex tried at a fixed position:
filename= then an optional opening quote (with backtracking), the lazy
capture, an optional closing quote, and the end-of-string anchor. -/
def matchPlain (cs : List Char) : Option (List Char) :=
  if litPref plainLit cs then
    match cs.drop plainLit.length with
    | '"' :: t =>
      match lazyBody t with
      | some g => some g
      | none => lazyBody ('"' :: t)
    | r => lazyBody r
  else none

/-- Leftmost match of the two-alternative filename regex: scan the positions
left to right and at each position try the extended alternative first.
Returns the capture group the handler reads (m at 1 or else m at 2). -/
def cdFind : List Char → Option (List Char)
  | [] => none
  | c :: rest =>
    match matchExt (c :: rest) with
    | some g => some g
    | none =>
      match matchPlain (c :: rest) with
      | some g => some g
      | none => cdFind rest

/-- The filename capture extracted from a Content-Disposition header. -/
def cdCapture (s : String) : Option String := (cdFind s.data).map String.mk

/-- The JSON request payload assembled by the submit handler. -/
structure Payload where
  name : String
  email : String
  mobile : String
  pdf : String
deriving DecidableEq, Repr

/-- The dataset state of the trigger control: the data-pdf attribute and the
data-fallback-name attribute; none models an absent attribute. -/
structure TriggerState where
  dataPdf : Option String
  fallbackName : Option String
deriving DecidableEq, Repr

/-- The FormData values of the three named fields; none models a form
without a control of that name (fd.get then yields null). -/
structure FormVals where
  name : Option String
  email : Option String
  mobile : Option String
deriving DecidableEq, Repr

/-- The observable shape of a resolved fetch response. jsonMessage is none
when res.json() rejects, and otherwise carries the message field of the
parsed body when one is present. blobOk records whether res.blob()
resolves. -/
structure HttpResponse where
  ok : Bool
  statusText : String
  jsonMessage : Option (Option String)
  blobOk : Bool
  contentDisposition : Option String
deriving DecidableEq, Repr

/-- The fetch call either rejects (network failure) or resolves. -/
inductive ServerBehavior where
  | reject : ServerBehavior
  | respond : HttpResponse → ServerBehavior
deriving DecidableEq, Repr

/-- The externally observable outcome of one run of the submit handler. -/
structure Outcome where
  message : String
  msgIsError : Bool
  request : Option Payload
  download : Option String
  formWasReset : Bool
  modalCloseDelayMs : Option Nat
  submitDisabledAtEnd : Bool
  newDataPdf : Option String
deriving DecidableEq, Repr

/-- The message shown for a non-ok response: the message field of the parsed
error body when truthy, otherwise the status text (res.json() rejection is
replaced by an object carrying the status text as its message). -/
def errorText (res : HttpResponse) : String :=
  match res.jsonMessage with
  | some (some m) => if m = "" then res.statusText else m
  | _ => res.statusText

/-- The fallback filename: the data-fallback-name attribute when truthy,
else the pdf key with ".pdf" appended when the key is non-empty, else
"download.pdf". -/
def fallbackFilename (btn : TriggerState) (pdfKey : String) : String :=
  match btn.fallbackName with
  | some f =>
    if f = "" then (if pdfKey = "" then "download.pdf" else pdfKey ++ ".pdf") else f
  | none => if pdfKey = "" then "download.pdf" else pdfKey ++ ".pdf"

/-- The filename finally assigned to the download anchor: the decoded regex
capture from the Content-Disposition header when the regex matches (none
models the URIError thrown by decodeURIComponent on a malformed capture),
otherwise the fallback filename. -/
def resolveFilename (btn : TriggerState) (pdfKey : String) (cd : Option String) :
    Option String :=
  match cdCapture (cd.getD "") with
  | some g => decodeURIComponent g
  | none => some (fallbackFilename btn pdfKey)

/-- The outcome of the catch branch: a generic error-styled transport
message, no download, no reset, no scheduled close. -/
def transportOutcome (req : Option Payload) (newKey : Option String) : Outcome :=
  { message := "Network or server error.", msgIsError := true, request := req,
    download := none, formWasReset := false, modalCloseDelayMs := none,
    submitDisabledAtEnd := false, newDataPdf := newKey }

/-- The payload the handler posts for a given trigger state, form values and
page path. -/
def submitPayload (btn : TriggerState) (fd : FormVals) (path : String) : Payload :=
  { name := getField fd.name, email := getField fd.email, mobile := getField fd.mobile,
    pdf := resolvePdfKey btn.dataPdf path }

/-- The data-pdf value after the dataset write-back step of one run: the
resolved key is cached when it is non-empty and the attribute was not
already truthy. -/
def writtenBackKey (btn : TriggerState) (path : String) : Option String :=
  if resolvePdfKey btn.dataPdf path ≠ "" ∧ ¬ isTruthy btn.dataPdf then
    some (resolvePdfKey btn.dataPdf path)
  else btn.dataPdf

/-- The outcome of the local validation-abort branch. -/
def invalidOutcome (newKey : Option String) : Outcome :=
  { message := "Please fill all required fields.", msgIsError := true, request := none,
    download := none, formWasReset := false, modalCloseDelayMs := none,
    submitDisabledAtEnd := false, newDataPdf := newKey }

/-- The outcome of the non-ok-response branch. -/
def notOkOutcome (payload : Payload) (newKey : Option String) (res : HttpResponse) :
    Outcome :=
  { message := "Error: " ++ errorText res, msgIsError := true, request := some payload,
    download := none, formWasReset := false, modalCloseDelayMs := none,
    submitDisabledAtEnd := false, newDataPdf := newKey }

/-- The outcome of the success branch: download triggered, success-styled
message, form reset, modal close scheduled after 800 ms. -/
def successOutcome (payload : Payload) (newKey : Option String) (fn : String) : Outcome :=
  { message := "Download started — check your browser.", msgIsError := false,
    request := some payload, download := some fn, formWasReset := true,
    modalCloseDelayMs := some 800, submitDisabledAtEnd := false, newDataPdf := newKey }

/-- Handling of a resolved fetch response, after validation passed. -/
def respondOutcome (btn : TriggerState) (payload : Payload) (newKey : Option String)
    (pdfKey : String) (res : HttpResponse) : Outcome :=
  if ¬ res.ok then notOkOutcome payload newKey res
  else if ¬ res.blobOk then transportOutcome (some payload) newKey
  else
    match resolveFilename btn pdfKey res.contentDisposition with
    | none => transportOutcome (some payload) newKey
    | some fn => successOutcome payload newKey fn

/-- One run of the form submit handler of js/pdf-submit.js, from the submit
event to the end of the finally block: resolve and write back the pdf key,
assemble the payload, validate, then either abort locally, fail on a
rejected fetch, or handle the response. -/
def handleSubmit (btn : TriggerState) (fd : FormVals) (pathname : String)
    (server : ServerBehavior) : Outcome :=
  let pdfKey := resolvePdfKey btn.dataPdf pathname
  let newKey := writtenBackKey btn pathname
  let payload := submitPayload btn fd pathname
  if payload.name = "" ∨ payload.email = "" ∨ payload.mobile = "" then
    invalidOutcome newKey
  else
    match server with
    | .reject => transportOutcome (some payload) newKey
    | .respond res => respondOutcome btn payload newKey pdfKey res

/-- The characters of "attachment; ", the header part before the filename
parameter in the headers used in the theorems below. -/
def attachPre : List Char :=
  ['a', 't', 't', 'a', 'c', 'h', 'm', 'e', 'n', 't', ';', ' ']

/-- A plain-form Content-Disposition header value. -/
def plainHeader (fn : String) : String := "attachment; filename=\"" ++ fn ++ "\""

/-- An extended-form Content-Disposition header value: attachment;
filename*=UTF-8, two apostrophes, then the value. -/
def extHeader (v : String) : String :=
  "attachment; filename*=UTF-8" ++ String.mk [apos, apos] ++ v

lemma litPref_self_append (l r : List Char) : litPref l (l ++ r) = true := by
  induction l with
  | nil => rfl
  | cons a as ih => simp [litPref, ih]

lemma matchExt_cons_ne (c : Char) (cs : List Char) (h : c ≠ 'f') :
    matchExt (c :: cs) = none := by
  have hb : ¬ (('f' : Char) = c) := Ne.symm h
  simp [matchExt, extLit, litPref, hb]

lemma matchPlain_cons_ne (c : Char) (cs : List Char) (h : c ≠ 'f') :
    matchPlain (c :: cs) = none := by
  have hb : ¬ (('f' : Char) = c) := Ne.symm h
  simp [matchPlain, plainLit, litPref, hb]

lemma cdFind_cons_ne (c : Char) (cs : List Char) (h : c ≠ 'f') :
    cdFind (c :: cs) = cdFind cs := by
  simp [cdFind, matchExt_cons_ne c cs h, matchPlain_cons_ne c cs h]

lemma cdFind_append_ne (pre rest : List Char) (h : ∀ c ∈ pre, c ≠ 'f') :
    cdFind (pre ++ rest) = cdFind rest := by
  induction pre with
  | nil => simp
  | cons c cs ih =>
    rw [List.cons_append, cdFind_cons_ne _ _ (h c (List.mem_cons_self c cs))]
    exact ih fun d hd => h d (List.mem_cons_of_mem _ hd)

lemma matchExt_plainLit (r : List Char) : matchExt (plainLit ++ r) = none := rfl

lemma lazyBody_concat_quote (fn : List Char) (hne : fn ≠ [])
    (hdot : fn.all dotChar = true) : lazyBody (fn ++ ['"']) = some fn := by
  have h1 : (fn ++ ['"']).isEmpty = false := by simp
  have h2 : (fn ++ ['"']).getLastD ' ' = '"' := List.getLastD_concat _ _ _
  have h3 : (fn ++ ['"']).dropLast = fn := List.dropLast_concat
  have h4 : 2 ≤ (fn ++ ['"']).length := by
    cases fn with
    | nil => exact absurd rfl hne
    | cons a as => simp [List.length_append]
  simp [lazyBody, h1, h2, h3, h4, hdot, hne]

lemma matchPlain_quoted (fn : List Char) (hne : fn ≠ [])
    (hdot : fn.all dotChar = true) :
    matchPlain (plainLit ++ '"' :: (fn ++ ['"'])) = some fn := by
  have hd : (plainLit ++ '"' :: (fn ++ ['"'])).drop plainLit.length
      = '"' :: (fn ++ ['"']) := List.drop_left _ _
  simp [matchPlain, litPref_self_append, hd, lazyBody_concat_quote fn hne hdot]

lemma matchExt_self (v : List Char) (hne : v ≠ []) (hdot : v.all dotChar = true) :
    matchExt (extLit ++ v) = some v := by
  have hd : (extLit ++ v).drop extLit.length = v := List.drop_left _ _
  have ht : v.takeWhile dotChar = v :=
    List.takeWhile_eq_self_iff.mpr (by simpa [List.all_eq_true] using hdot)
  have hv : (v.takeWhile dotChar).isEmpty = false := by
    rw [ht]; exact List.isEmpty_eq_false.mpr hne
  simp [matchExt, litPref_self_append, hd, ht, hv, hne]

lemma cdFind_matchExt_some (cs g : List Char) (hext : matchExt cs = some g) :
    cdFind cs = some g := by
  cases cs with
  | nil => exact Option.noConfusion hext
  | cons c rest => simp [cdFind, hext]

lemma cdFind_matchPlain_some (cs g : List Char) (hext : matchExt cs = none)
    (hp : matchPlain cs = some g) : cdFind cs = some g := by
  cases cs with
  | nil => exact Option.noConfusion hp
  | cons c rest => simp [cdFind, hext, hp]

lemma data_ne_nil (s : String) (h : s ≠ "") : s.data ≠ [] := by
  cases s with
  | mk d =>
    intro hd
    have hd2 : d = [] := hd
    subst hd2
    exact h rfl

lemma plainHeader_data (fn : String) :
    (plainHeader fn).data = attachPre ++ (plainLit ++ '"' :: (fn.data ++ ['"'])) := by
  have h : "attachment; filename=\"".data = attachPre ++ (plainLit ++ ['"']) := rfl
  calc (plainHeader fn).data
      = ("attachment; filename=\"".data ++ fn.data) ++ ['"'] := rfl
    _ = ((attachPre ++ (plainLit ++ ['"'])) ++ fn.data) ++ ['"'] := by rw [h]
    _ = attachPre ++ (plainLit ++ '"' :: (fn.data ++ ['"'])) := by
        simp [List.append_assoc]

lemma extHeader_data (v : String) :
    (extHeader v).data = attachPre ++ (extLit ++ v.data) := by
  have h : ("attachment; filename*=UTF-8" ++ String.mk [apos, apos]).data
      = attachPre ++ extLit := by decide
  calc (extHeader v).data
      = ("attachment; filename*=UTF-8" ++ String.mk [apos, apos]).data ++ v.data := rfl
    _ = (attachPre ++ extLit) ++ v.data := by rw [h]
    _ = attachPre ++ (extLit ++ v.data) := List.append_assoc _ _ _

lemma cdCapture_plainHeader (fn : String) (hne : fn ≠ "")
    (hdot : fn.data.all dotChar = true) : cdCapture (plainHeader fn) = some fn := by
  have hfn : fn.data ≠ [] := data_ne_nil fn hne
  unfold cdCapture
  rw [plainHeader_data, cdFind_append_ne attachPre _ (by decide),
    cdFind_matchPlain_some _ fn.data (matchExt_plainLit _)
      (matchPlain_quoted fn.data hfn hdot)]
  rfl

lemma cdCapture_extHeader (v : String) (hne : v ≠ "")
    (hdot : v.data.all dotChar = true) : cdCapture (extHeader v) = some v := by
  have hv : v.data ≠ [] := data_ne_nil v hne
  unfold cdCapture
  rw [extHeader_data, cdFind_append_ne attachPre _ (by decide),
    cdFind_matchExt_some _ v.data (matchExt_self v.data hv hdot)]
  rfl

lemma decodeChars_cons_ne_pct (fuel : Nat) (c : Char) (rest : List Char)
    (h : ¬ (c = '%')) :
    decodeChars (fuel + 1) (c :: rest) = (decodeChars fuel rest).map (c :: ·) := by
  rw [decodeChars.eq_3, if_neg h]

lemma decodeChars_no_pct (cs : List Char) (fuel : Nat) (hf : cs.length ≤ fuel)
    (h : '%' ∉ cs) : decodeChars fuel cs = some cs := by
  induction cs generalizing fuel with
  | nil => cases fuel <;> rfl
  | cons c rest ih =>
    cases fuel with
    | zero => simp at hf
    | succ f =>
      have h1 : ¬ (c = '%') := fun hc => h (by rw [hc]; exact List.mem_cons_self _ _)
      have h2 : '%' ∉ rest := fun hr => h (List.mem_cons_of_mem _ hr)
      have hf2 : rest.length ≤ f := by simpa using hf
      rw [decodeChars_cons_ne_pct f c rest h1, ih f hf2 h2]
      rfl

lemma decodeURIComponent_no_pct (s : String) (h : '%' ∉ s.data) :
    decodeURIComponent s = some s := by
  unfold decodeURIComponent
  rw [decodeChars_no_pct s.data s.data.length (Nat.le_refl _) h]
  rfl

lemma payload_valid (btn : TriggerState) (fd : FormVals) (path : String)
    (hn : getField fd.name ≠ "") (he : getField fd.email ≠ "")
    (hm : getField fd.mobile ≠ "") :
    ¬ ((submitPayload btn fd path).name = "" ∨ (submitPayload btn fd path).email = ""
       ∨ (submitPayload btn fd path).mobile = "") := by
  simp [submitPayload, hn, he, hm]

lemma handleSubmit_invalid (btn : TriggerState) (fd : FormVals) (path : String)
    (server : ServerBehavior)
    (h : getField fd.name = "" ∨ getField fd.email = "" ∨ getField fd.mobile = "") :
    handleSubmit btn fd path server = invalidOutcome (writtenBackKey btn path) := by
  have h2 : ((submitPayload btn fd path).name = "" ∨ (submitPayload btn fd path).email = ""
      ∨ (submitPayload btn fd path).mobile = "") := h
  unfold handleSubmit
  rw [if_pos h2]

lemma handleSubmit_reject (btn : TriggerState) (fd : FormVals) (path : String)
    (hn : getField fd.name ≠ "") (he : getField fd.email ≠ "")
    (hm : getField fd.mobile ≠ "") :
    handleSubmit btn fd path .reject =
      transportOutcome (some (submitPayload btn fd path)) (writtenBackKey btn path) := by
  unfold handleSubmit
  rw [if_neg (payload_valid btn fd path hn he hm)]

lemma handleSubmit_respond (btn : TriggerState) (fd : FormVals) (path : String)
    (res : HttpResponse) (hn : getField fd.name ≠ "") (he : getField fd.email ≠ "")
    (hm : getField fd.mobile ≠ "") :
    handleSubmit btn fd path (.respond res) =
      respondOutcome btn (submitPayload btn fd path) (writtenBackKey btn path)
        (resolvePdfKey btn.dataPdf path) res := by
  unfold handleSubmit
  rw [if_neg (payload_valid btn fd path hn he hm)]

lemma handleSubmit_notOk (btn : TriggerState) (fd : FormVals) (path : String)
    (res : HttpResponse) (hn : getField fd.name ≠ "") (he : getField fd.email ≠ "")
    (hm : getField fd.mobile ≠ "") (hok : res.ok = false) :
    handleSubmit btn fd path (.respond res) =
      notOkOutcome (submitPayload btn fd path) (writtenBackKey btn path) res := by
  have hok2 : ¬ (res.ok = true) := by simp [hok]
  rw [handleSubmit_respond btn fd path res hn he hm]
  unfold respondOutcome
  rw [if_pos hok2]

lemma handleSubmit_blobFail (btn : TriggerState) (fd : FormVals) (path : String)
    (res : HttpResponse) (hn : getField fd.name ≠ "") (he : getField fd.email ≠ "")
    (hm : getField fd.mobile ≠ "") (hok : res.ok = true) (hb : res.blobOk = false) :
    handleSubmit btn fd path (.respond res) =
      transportOutcome (some (submitPayload btn fd path)) (writtenBackKey btn path) := by
  have hok2 : ¬ ¬ (res.ok = true) := by simp [hok]
  have hb2 : ¬ (res.blobOk = true) := by simp [hb]
  rw [handleSubmit_respond btn fd path res hn he hm]
  unfold respondOutcome
  rw [if_neg hok2, if_pos hb2]

lemma handleSubmit_decodeFail (btn : TriggerState) (fd : FormVals) (path : String)
    (res : HttpResponse) (hn : getField fd.name ≠ "") (he : getField fd.email ≠ "")
    (hm : getField fd.mobile ≠ "") (hok : res.ok = true) (hb : res.blobOk = true)
    (hf : resolveFilename btn (resolvePdfKey btn.dataPdf path) res.contentDisposition
      = none) :
    handleSubmit btn fd path (.respond res) =
      transportOutcome (some (submitPayload btn fd path)) (writtenBackKey btn path) := by
  have hok2 : ¬ ¬ (res.ok = true) := by simp [hok]
  have hb2 : ¬ ¬ (res.blobOk = true) := by simp [hb]
  rw [handleSubmit_respond btn fd path res hn he hm]
  unfold respondOutcome
  rw [if_neg hok2, if_neg hb2, hf]

lemma handleSubmit_success (btn : TriggerState) (fd : FormVals) (path : String)
    (res : HttpResponse) (fn : String) (hn : getField fd.name ≠ "")
    (he : getField fd.email ≠ "") (hm : getField fd.mobile ≠ "")
    (hok : res.ok = true) (hb : res.blobOk = true)
    (hf : resolveFilename btn (resolvePdfKey btn.dataPdf path) res.contentDisposition
      = some fn) :
    handleSubmit btn fd path (.respond res) =
      successOutcome (submitPayload btn fd path) (writtenBackKey btn path) fn := by
  have hok2 : ¬ ¬ (res.ok = true) := by simp [hok]
  have hb2 : ¬ ¬ (res.blobOk = true) := by simp [hb]
  rw [handleSubmit_respond btn fd path res hn he hm]
  unfold respondOutcome
  rw [if_neg hok2, if_neg hb2, hf]

lemma handleSubmit_cases (btn : TriggerState) (fd : FormVals) (path : String)
    (server : ServerBehavior) :
    ((getField fd.name = "" ∨ getField fd.email = "" ∨ getField fd.mobile = "") ∧
      handleSubmit btn fd path server = invalidOutcome (writtenBackKey btn path)) ∨
    handleSubmit btn fd path server
      = transportOutcome (some (submitPayload btn fd path)) (writtenBackKey btn path) ∨
    (∃ res, handleSubmit btn fd path server
      = notOkOutcome (submitPayload btn fd path) (writtenBackKey btn path) res) ∨
    (∃ fn, handleSubmit btn fd path server
      = successOutcome (submitPayload btn fd path) (writtenBackKey btn path) fn) := by
  by_cases hval : getField fd.name = "" ∨ getField fd.email = "" ∨ getField fd.mobile = ""
  · exact Or.inl ⟨hval, handleSubmit_invalid btn fd path server hval⟩
  · have hn : getField fd.name ≠ "" := fun h => hval (Or.inl h)
    have he : getField fd.email ≠ "" := fun h => hval (Or.inr (Or.inl h))
    have hm : getField fd.mobile ≠ "" := fun h => hval (Or.inr (Or.inr h))
    cases server with
    | reject => exact Or.inr (Or.inl (handleSubmit_reject btn fd path hn he hm))
    | respond res =>
      by_cases hok : res.ok = true
      · by_cases hb : res.blobOk = true
        · cases hf : resolveFilename btn (resolvePdfKey btn.dataPdf path)
              res.contentDisposition with
          | none =>
            exact Or.inr (Or.inl (handleSubmit_decodeFail btn fd path res hn he hm hok hb hf))
          | some fn =>
            exact Or.inr (Or.inr (Or.inr
              ⟨fn, handleSubmit_success btn fd path res fn hn he hm hok hb hf⟩))
        · have hb2 : res.blobOk = false := by simpa using hb
          exact Or.inr (Or.inl (handleSubmit_blobFail btn fd path res hn he hm hok hb2))
      · have hok2 : res.ok = false := by simpa using hok
        exact Or.inr (Or.inr (Or.inl
          ⟨res, handleSubmit_notOk btn fd path res hn he hm hok2⟩))

lemma handleSubmit_request_valid (btn : TriggerState) (fd : FormVals) (path : String)
    (server : ServerBehavior) (hn : getField fd.name ≠ "")
    (he : getField fd.email ≠ "") (hm : getField fd.mobile ≠ "") :
    (handleSubmit btn fd path server).request = some (submitPayload btn fd path) := by
  rcases handleSubmit_cases btn fd path server with ⟨hbad, _⟩ | h | ⟨res, h⟩ | ⟨fn, h⟩
  · rcases hbad with h | h | h
    exacts [absurd h hn, absurd h he, absurd h hm]
  all_goals rw [h]; rfl

lemma handleSubmit_newDataPdf (btn : TriggerState) (fd : FormVals) (path : String)
    (server : ServerBehavior) :
    (handleSubmit btn fd path server).newDataPdf = writtenBackKey btn path := by
  rcases handleSubmit_cases btn fd path server with ⟨_, h⟩ | h | ⟨res, h⟩ | ⟨fn, h⟩ <;>
    (rw [h]; rfl)

/-- C1: when any of the trimmed name, email or mobile values is the empty
string, the handler shows the error-styled message "Please fill all required
fields.", leaves the submit control re-enabled at the end of the run, and
issues no network request. -/
theorem claim_C1 (btn : TriggerState) (fd : FormVals) (path : String)
    (server : ServerBehavior)
    (h : getField fd.name = "" ∨ getField fd.email = "" ∨ getField fd.mobile = "") :
    (handleSubmit btn fd path server).message = "Please fill all required fields." ∧
    (handleSubmit btn fd path server).msgIsError = true ∧
    (handleSubmit btn fd path server).submitDisabledAtEnd = false ∧
    (handleSubmit btn fd path server).request = none := by
  rw [handleSubmit_invalid btn fd path server h]
  exact ⟨rfl, rfl, rfl, rfl⟩

theorem claim_C1_witness :
    (getField (some (String.mk [Char.ofNat 12288])) = "" ∨
      getField (some "a@b.com") = "" ∨ getField (some "1") = "") ∧
    ((handleSubmit ⟨none, none⟩
        ⟨some (String.mk [Char.ofNat 12288]), some "a@b.com", some "1"⟩ "p.html"
        .reject).message = "Please fill all required fields." ∧
     (handleSubmit ⟨none, none⟩
        ⟨some (String.mk [Char.ofNat 12288]), some "a@b.com", some "1"⟩ "p.html"
        .reject).msgIsError = true ∧
     (handleSubmit ⟨none, none⟩
        ⟨some (String.mk [Char.ofNat 12288]), some "a@b.com", some "1"⟩ "p.html"
        .reject).submitDisabledAtEnd = false ∧
     (handleSubmit ⟨none, none⟩
        ⟨some (String.mk [Char.ofNat 12288]), some "a@b.com", some "1"⟩ "p.html"
        .reject).request = none) :=
  ⟨Or.inl (by decide),
   claim_C1 ⟨none, none⟩
     ⟨some (String.mk [Char.ofNat 12288]), some "a@b.com", some "1"⟩ "p.html" .reject
     (Or.inl (by decide))⟩

/-- C2: for every submission that passes validation, the posted pdf field is
the resolved key: the explicit data-pdf identifier when a non-empty one is
present (an empty data-pdf attribute fails the truthiness test in the code
and is treated as no identifier), otherwise the key inferred from the page
path (last segment, trailing .html stripped case-insensitively, then the
leading series- and page- markers stripped); path
series-cutter-compactor.html with no explicit key yields cutter-compactor,
and an explicit key widgetA is posted regardless of path. -/
theorem claim_C2 (btn : TriggerState) (fd : FormVals) (path : String)
    (server : ServerBehavior) (hn : getField fd.name ≠ "")
    (he : getField fd.email ≠ "") (hm : getField fd.mobile ≠ "") :
    ((handleSubmit btn fd path server).request = some (submitPayload btn fd path) ∧
     (submitPayload btn fd path).pdf = resolvePdfKey btn.dataPdf path) ∧
    (∀ k, btn.dataPdf = some k → k ≠ "" → resolvePdfKey btn.dataPdf path = k) ∧
    (btn.dataPdf = none → resolvePdfKey btn.dataPdf path = inferKeyFromPath path) ∧
    inferKeyFromPath "series-cutter-compactor.html" = "cutter-compactor" ∧
    (∀ p2, resolvePdfKey (some "widgetA") p2 = "widgetA") := by
  refine ⟨⟨handleSubmit_request_valid btn fd path server hn he hm, rfl⟩, ?_, ?_,
    by decide, fun p2 => by simp [resolvePdfKey]⟩
  · intro k hk hkne
    rw [hk]
    simp [resolvePdfKey, hkne]
  · intro h0
    rw [h0]
    rfl

theorem claim_C2_witness :
    (getField (some "A") ≠ "" ∧ getField (some "a@b.com") ≠ "" ∧
      getField (some "123") ≠ "") ∧
    (handleSubmit ⟨some "widgetA", none⟩ ⟨some "A", some "a@b.com", some "123"⟩
        "/series-cutter-compactor.html" .reject).request
      = some ⟨"A", "a@b.com", "123", "widgetA"⟩ :=
  ⟨⟨by decide, by decide, by decide⟩, by
    have h := (claim_C2 ⟨some "widgetA", none⟩ ⟨some "A", some "a@b.com", some "123"⟩
      "/series-cutter-compactor.html" .reject (by decide) (by decide) (by decide)).1.1
    rw [h]
    decide⟩

/-- C7: on every run of the handler, whatever the outcome path (validation
abort, rejected fetch, server error, blob failure, decode failure, or
success), the submit control is no longer disabled when the run finishes. -/
theorem claim_C7 (btn : TriggerState) (fd : FormVals) (path : String)
    (server : ServerBehavior) :
    (handleSubmit btn fd path server).submitDisabledAtEnd = false := by
  rcases handleSubmit_cases btn fd path server with ⟨_, h⟩ | h | ⟨res, h⟩ | ⟨fn, h⟩ <;>
    (rw [h]; rfl)

/-- C9: on every run that resolves a non-empty pdf key while the trigger
control carries no data-pdf attribute, the resolved key is written back to
the attribute, and a later resolution from that written-back attribute
yields the same key on any path. -/
theorem claim_C9 (btn : TriggerState) (fd : FormVals) (path : String)
    (server : ServerBehavior) (hnone : btn.dataPdf = none)
    (hk : inferKeyFromPath path ≠ "") :
    (handleSubmit btn fd path server).newDataPdf = some (inferKeyFromPath path) ∧
    (∀ path2, resolvePdfKey (some (inferKeyFromPath path)) path2
      = inferKeyFromPath path) := by
  constructor
  · rw [handleSubmit_newDataPdf]
    unfold writtenBackKey
    rw [hnone]
    have hk2 : resolvePdfKey none path ≠ "" := hk
    rw [if_pos ⟨hk2, by simp [isTruthy]⟩]
    rfl
  · intro path2
    simp [resolvePdfKey, hk]

theorem claim_C9_witness :
    ((⟨none, none⟩ : TriggerState).dataPdf = none ∧
     inferKeyFromPath "series-cutter-compactor.html" ≠ "") ∧
    (handleSubmit ⟨none, none⟩ ⟨some "A", some "a@b.com", some "123"⟩
        "series-cutter-compactor.html" .reject).newDataPdf = some "cutter-compactor" ∧
    resolvePdfKey (some "cutter-compactor") "/other.html" = "cutter-compactor" := by
  have h := claim_C9 ⟨none, none⟩ ⟨some "A", some "a@b.com", some "123"⟩
    "series-cutter-compactor.html" .reject rfl (by decide)
  refine ⟨⟨rfl, by decide⟩, ?_, ?_⟩
  · rw [h.1]
    decide
  · have h2 := h.2 "/other.html"
    rw [show inferKeyFromPath "series-cutter-compactor.html" = "cutter-compactor"
      from by decide] at h2
    exact h2

/-- C10: when the form has no control named name (so FormData yields null,
coerced to the empty string before trimming), the handler takes the local
validation-abort branch: error-styled required-fields message and no network
request, with no exception escaping the handler (the run is total and
produces the abort outcome). -/
theorem claim_C10 (btn : TriggerState) (fd : FormVals) (path : String)
    (server : ServerBehavior) (hname : fd.name = none) :
    (handleSubmit btn fd path server).message = "Please fill all required fields." ∧
    (handleSubmit btn fd path server).msgIsError = true ∧
    (handleSubmit btn fd path server).request = none := by
  have h : getField fd.name = "" := by rw [hname]; rfl
  rw [handleSubmit_invalid btn fd path server (Or.inl h)]
  exact ⟨rfl, rfl, rfl⟩

theorem claim_C10_witness :
    (⟨none, some "a@b.com", some "1"⟩ : FormVals).name = none ∧
    ((handleSubmit ⟨none, none⟩ ⟨none, some "a@b.com", some "1"⟩ "p.html"
        .reject).message = "Please fill all required fields." ∧
     (handleSubmit ⟨none, none⟩ ⟨none, some "a@b.com", some "1"⟩ "p.html"
        .reject).msgIsError = true ∧
     (handleSubmit ⟨none, none⟩ ⟨none, some "a@b.com", some "1"⟩ "p.html"
        .reject).request = none) :=
  ⟨rfl, claim_C10 ⟨none, none⟩ ⟨none, some "a@b.com", some "1"⟩ "p.html" .reject rfl⟩

/-- C3 counterexample input and amended statement support: the claim as
stated requires the displayed message to be "Error: " followed by the
message field whenever the error body parses; a body that parses with an
empty message field refutes it, because the empty string is falsy in the
message-or-statusText expression of the handler, which then shows the
status text instead. -/
theorem claim_C3_counterexample :
    (handleSubmit ⟨none, none⟩ ⟨some "A", some "a@b.com", some "123"⟩ "x.html"
      (.respond ⟨false, "Unprocessable Entity", some (some ""), true, none⟩)).message
      = "Error: Unprocessable Entity" ∧
    "Error: Unprocessable Entity" ≠ "Error: " := by decide

/-- C3 amended: for a non-2xx response, the handler displays the
error-styled message "Error: " followed by the message field when the JSON
body parses with a non-empty message string, and otherwise (parse failure,
missing message field, or empty message string) by the status text; the
submit control is re-enabled, no download is triggered, and no modal close
is scheduled. Status 422 with body message Invalid email displays exactly
Error: Invalid email. -/
theorem claim_C3_amended (btn : TriggerState) (fd : FormVals) (path : String)
    (res : HttpResponse) (hn : getField fd.name ≠ "") (he : getField fd.email ≠ "")
    (hm : getField fd.mobile ≠ "") (hok : res.ok = false) :
    (∀ m, res.jsonMessage = some (some m) → m ≠ "" →
      (handleSubmit btn fd path (.respond res)).message = "Error: " ++ m) ∧
    ((res.jsonMessage = none ∨ res.jsonMessage = some none ∨
        res.jsonMessage = some (some "")) →
      (handleSubmit btn fd path (.respond res)).message
        = "Error: " ++ res.statusText) ∧
    (handleSubmit btn fd path (.respond res)).msgIsError = true ∧
    (handleSubmit btn fd path (.respond res)).download = none ∧
    (handleSubmit btn fd path (.respond res)).modalCloseDelayMs = none ∧
    (handleSubmit btn fd path (.respond res)).submitDisabledAtEnd = false := by
  rw [handleSubmit_notOk btn fd path res hn he hm hok]
  refine ⟨?_, ?_, rfl, rfl, rfl, rfl⟩
  · intro m hjm hmne
    show "Error: " ++ errorText res = "Error: " ++ m
    simp [errorText, hjm, hmne]
  · rintro (hj | hj | hj) <;>
      · show "Error: " ++ errorText res = "Error: " ++ res.statusText
        simp [errorText, hj]

theorem claim_C3_witness :
    (getField (some "A") ≠ "" ∧ getField (some "a@b.com") ≠ "" ∧
      getField (some "123") ≠ "" ∧
      (⟨false, "Unprocessable Entity", some (some "Invalid email"), true, none⟩ :
        HttpResponse).ok = false) ∧
    (handleSubmit ⟨none, none⟩ ⟨some "A", some "a@b.com", some "123"⟩ "x.html"
        (.respond ⟨false, "Unprocessable Entity", some (some "Invalid email"), true,
          none⟩)).message = "Error: Invalid email" ∧
    (handleSubmit ⟨none, none⟩ ⟨some "A", some "a@b.com", some "123"⟩ "x.html"
        (.respond ⟨false, "Unprocessable Entity", some (some "Invalid email"), true,
          none⟩)).modalCloseDelayMs = none := by
  have h := claim_C3_amended ⟨none, none⟩ ⟨some "A", some "a@b.com", some "123"⟩
    "x.html" ⟨false, "Unprocessable Entity", some (some "Invalid email"), true, none⟩
    (by decide) (by decide) (by decide) rfl
  exact ⟨⟨by decide, by decide, by decide, rfl⟩,
    h.1 "Invalid email" rfl (by decide), h.2.2.2.2.1⟩

/-- The Content-Disposition header of the C4 counterexample: both filename
forms present, the plain form first (the standard header order). -/
def cdBoth : String :=
  "attachment; filename=\"b.pdf\"; filename*=UTF-8" ++ String.mk [apos, apos] ++ "a.pdf"

/-- The capture the handler actually extracts from cdBoth: the plain
alternative matches at the leftmost position and its lazy group runs to the
end of the header, swallowing the extended form. -/
def cdBothCapture : String :=
  "b.pdf\"; filename*=UTF-8" ++ String.mk [apos, apos] ++ "a.pdf"

/-- C4 counterexample: when both filename forms are present with the plain
form first, the claimed preferential extended-form parse would give a.pdf,
but the regex match is chosen by leftmost position before alternative
order, so the plain branch wins and the download filename is the garbled
plain capture, not a.pdf. -/
theorem claim_C4_counterexample :
    (handleSubmit ⟨none, none⟩ ⟨some "A", some "a@b.com", some "123"⟩ "x.html"
      (.respond ⟨true, "OK", none, true, some cdBoth⟩)).download
      = some cdBothCapture ∧
    cdBothCapture ≠ "a.pdf" := by decide

/-- C4 amended: the filename is taken from the leftmost regex match in the
Content-Disposition header; the extended form is preferred only at equal
match positions, so a plain filename= occurring earlier wins. For a header
that is exactly the plain form attachment; filename="fn" the download
filename is the percent-decode of fn (so filename="guide.pdf" yields
guide.pdf), and for a header that is exactly the extended form attachment;
filename*=UTF-8 with two apostrophes then v, it is the percent-decode
of v. -/
theorem claim_C4_amended (btn : TriggerState) (fd : FormVals) (path : String)
    (hn : getField fd.name ≠ "") (he : getField fd.email ≠ "")
    (hm : getField fd.mobile ≠ "") :
    (∀ res : HttpResponse, ∀ fn : String, res.ok = true → res.blobOk = true →
      res.contentDisposition = some (plainHeader fn) → fn ≠ "" →
      fn.data.all dotChar = true →
      (handleSubmit btn fd path (.respond res)).download = decodeURIComponent fn) ∧
    (∀ res : HttpResponse, ∀ v : String, res.ok = true → res.blobOk = true →
      res.contentDisposition = some (extHeader v) → v ≠ "" →
      v.data.all dotChar = true →
      (handleSubmit btn fd path (.respond res)).download = decodeURIComponent v) := by
  constructor
  · intro res fn hok hb hcd hne hdot
    have hrf : resolveFilename btn (resolvePdfKey btn.dataPdf path)
        res.contentDisposition = decodeURIComponent fn := by
      rw [hcd]
      unfold resolveFilename
      rw [show (some (plainHeader fn)).getD "" = plainHeader fn from rfl,
        cdCapture_plainHeader fn hne hdot]
    cases hdec : decodeURIComponent fn with
    | none =>
      rw [handleSubmit_decodeFail btn fd path res hn he hm hok hb (hrf.trans hdec)]
      rfl
    | some w =>
      rw [handleSubmit_success btn fd path res w hn he hm hok hb (hrf.trans hdec)]
      rfl
  · intro res v hok hb hcd hne hdot
    have hrf : resolveFilename btn (resolvePdfKey btn.dataPdf path)
        res.contentDisposition = decodeURIComponent v := by
      rw [hcd]
      unfold resolveFilename
      rw [show (some (extHeader v)).getD "" = extHeader v from rfl,
        cdCapture_extHeader v hne hdot]
    cases hdec : decodeURIComponent v with
    | none =>
      rw [handleSubmit_decodeFail btn fd path res hn he hm hok hb (hrf.trans hdec)]
      rfl
    | some w =>
      rw [handleSubmit_success btn fd path res w hn he hm hok hb (hrf.trans hdec)]
      rfl

theorem claim_C4_witness :
    (getField (some "A") ≠ "" ∧
     (⟨true, "OK", none, true, some (plainHeader "guide.pdf")⟩ : HttpResponse).ok = true ∧
     plainHeader "guide.pdf" = "attachment; filename=\"guide.pdf\"" ∧
     "guide.pdf" ≠ "" ∧ "guide.pdf".data.all dotChar = true) ∧
    (handleSubmit ⟨none, none⟩ ⟨some "A", some "a@b.com", some "123"⟩ "x.html"
        (.respond ⟨true, "OK", none, true, some (plainHeader "guide.pdf")⟩)).download
      = some "guide.pdf" := by
  have h := (claim_C4_amended ⟨none, none⟩ ⟨some "A", some "a@b.com", some "123"⟩
    "x.html" (by decide) (by decide) (by decide)).1
    ⟨true, "OK", none, true, some (plainHeader "guide.pdf")⟩ "guide.pdf"
    rfl rfl rfl (by decide) (by decide)
  refine ⟨⟨by decide, rfl, by decide, by decide, by decide⟩, ?_⟩
  rw [h]
  decide

/-- C5: for a successful response whose Content-Disposition yields no
filename capture, the download filename is the fallback: the
data-fallback-name attribute when a non-empty one is present (an empty
attribute is falsy and is skipped), else the resolved pdf key with .pdf
appended when the key is non-empty, else download.pdf; pdf key
cutter-compactor with no header yields cutter-compactor.pdf. -/
theorem claim_C5 (btn : TriggerState) (fd : FormVals) (path : String)
    (res : HttpResponse) (hn : getField fd.name ≠ "") (he : getField fd.email ≠ "")
    (hm : getField fd.mobile ≠ "") (hok : res.ok = true) (hb : res.blobOk = true)
    (hcd : cdCapture (res.contentDisposition.getD "") = none) :
    (handleSubmit btn fd path (.respond res)).download
      = some (fallbackFilename btn (resolvePdfKey btn.dataPdf path)) ∧
    (∀ f, btn.fallbackName = some f → f ≠ "" →
      fallbackFilename btn (resolvePdfKey btn.dataPdf path) = f) ∧
    ((btn.fallbackName = none ∨ btn.fallbackName = some "") →
      resolvePdfKey btn.dataPdf path ≠ "" →
      fallbackFilename btn (resolvePdfKey btn.dataPdf path)
        = resolvePdfKey btn.dataPdf path ++ ".pdf") ∧
    ((btn.fallbackName = none ∨ btn.fallbackName = some "") →
      resolvePdfKey btn.dataPdf path = "" →
      fallbackFilename btn (resolvePdfKey btn.dataPdf path) = "download.pdf") ∧
    fallbackFilename ⟨none, none⟩ "cutter-compactor" = "cutter-compactor.pdf" := by
  have hrf : resolveFilename btn (resolvePdfKey btn.dataPdf path)
      res.contentDisposition
      = some (fallbackFilename btn (resolvePdfKey btn.dataPdf path)) := by
    unfold resolveFilename
    rw [hcd]
  refine ⟨?_, ?_, ?_, ?_, by decide⟩
  · rw [handleSubmit_success btn fd path res _ hn he hm hok hb hrf]
    rfl
  · intro f hf hfne
    simp [fallbackFilename, hf, hfne]
  · rintro (hf | hf) hk <;> simp [fallbackFilename, hf, hk]
  · rintro (hf | hf) hk <;> simp [fallbackFilename, hf, hk]

theorem claim_C5_witness :
    (getField (some "A") ≠ "" ∧ getField (some "a@b.com") ≠ "" ∧
      getField (some "123") ≠ "" ∧
      cdCapture (((⟨true, "OK", none, true, none⟩ :
        HttpResponse).contentDisposition).getD "") = none) ∧
    (handleSubmit ⟨none, none⟩ ⟨some "A", some "a@b.com", some "123"⟩
        "/series-cutter-compactor.html"
        (.respond ⟨true, "OK", none, true, none⟩)).download
      = some "cutter-compactor.pdf" := by
  have h := (claim_C5 ⟨none, none⟩ ⟨some "A", some "a@b.com", some "123"⟩
    "/series-cutter-compactor.html" ⟨true, "OK", none, true, none⟩
    (by decide) (by decide) (by decide) rfl rfl (by decide)).1
  refine ⟨⟨by decide, by decide, by decide, by decide⟩, ?_⟩
  rw [h]
  decide

/-- C6: for every submission that reaches the network, a modeled failure of
any step after validation that the handler does not turn into a server-error
message, namely a rejected fetch, a failed blob read, or a throwing filename
decode, ends in the catch branch: the error-styled message "Network or
server error." is shown and no modal close is scheduled, so the modal stays
open; the run is total, so nothing escapes the handler boundary. -/
theorem claim_C6 (btn : TriggerState) (fd : FormVals) (path : String)
    (hn : getField fd.name ≠ "") (he : getField fd.email ≠ "")
    (hm : getField fd.mobile ≠ "") :
    ((handleSubmit btn fd path .reject).message = "Network or server error." ∧
     (handleSubmit btn fd path .reject).msgIsError = true ∧
     (handleSubmit btn fd path .reject).modalCloseDelayMs = none) ∧
    (∀ res : HttpResponse, res.ok = true → res.blobOk = false →
      (handleSubmit btn fd path (.respond res)).message = "Network or server error." ∧
      (handleSubmit btn fd path (.respond res)).msgIsError = true ∧
      (handleSubmit btn fd path (.respond res)).modalCloseDelayMs = none) ∧
    (∀ res : HttpResponse, res.ok = true → res.blobOk = true →
      resolveFilename btn (resolvePdfKey btn.dataPdf path) res.contentDisposition
        = none →
      (handleSubmit btn fd path (.respond res)).message = "Network or server error." ∧
      (handleSubmit btn fd path (.respond res)).msgIsError = true ∧
      (handleSubmit btn fd path (.respond res)).modalCloseDelayMs = none) := by
  refine ⟨?_, ?_, ?_⟩
  · rw [handleSubmit_reject btn fd path hn he hm]
    exact ⟨rfl, rfl, rfl⟩
  · intro res hok hb
    rw [handleSubmit_blobFail btn fd path res hn he hm hok hb]
    exact ⟨rfl, rfl, rfl⟩
  · intro res hok hb hf
    rw [handleSubmit_decodeFail btn fd path res hn he hm hok hb hf]
    exact ⟨rfl, rfl, rfl⟩

theorem claim_C6_witness :
    (getField (some "A") ≠ "" ∧ getField (some "a@b.com") ≠ "" ∧
      getField (some "123") ≠ "") ∧
    ((handleSubmit ⟨none, none⟩ ⟨some "A", some "a@b.com", some "123"⟩ "x.html"
        .reject).message = "Network or server error." ∧
     (handleSubmit ⟨none, none⟩ ⟨some "A", some "a@b.com", some "123"⟩ "x.html"
        .reject).msgIsError = true ∧
     (handleSubmit ⟨none, none⟩ ⟨some "A", some "a@b.com", some "123"⟩ "x.html"
        .reject).modalCloseDelayMs = none) :=
  ⟨⟨by decide, by decide, by decide⟩,
   (claim_C6 ⟨none, none⟩ ⟨some "A", some "a@b.com", some "123"⟩ "x.html"
     (by decide) (by decide) (by decide)).1⟩

/-- C8: for every submission with a successful response whose blob read and
filename resolution complete, the download is triggered with the resolved
filename, a success-styled status message is shown, the form is reset, and
the modal close is scheduled after exactly 800 milliseconds. -/
theorem claim_C8 (btn : TriggerState) (fd : FormVals) (path : String)
    (res : HttpResponse) (fn : String) (hn : getField fd.name ≠ "")
    (he : getField fd.email ≠ "") (hm : getField fd.mobile ≠ "")
    (hok : res.ok = true) (hb : res.blobOk = true)
    (hf : resolveFilename btn (resolvePdfKey btn.dataPdf path) res.contentDisposition
      = some fn) :
    (handleSubmit btn fd path (.respond res)).download = some fn ∧
    (handleSubmit btn fd path (.respond res)).message
      = "Download started — check your browser." ∧
    (handleSubmit btn fd path (.respond res)).msgIsError = false ∧
    (handleSubmit btn fd path (.respond res)).formWasReset = true ∧
    (handleSubmit btn fd path (.respond res)).modalCloseDelayMs = some 800 := by
  rw [handleSubmit_success btn fd path res fn hn he hm hok hb hf]
  exact ⟨rfl, rfl, rfl, rfl, rfl⟩

theorem claim_C8_witness :
    (getField (some "A") ≠ "" ∧ getField (some "a@b.com") ≠ "" ∧
      getField (some "123") ≠ "" ∧
      resolveFilename ⟨none, none⟩
        (resolvePdfKey (⟨none, none⟩ : TriggerState).dataPdf "x.html")
        (⟨true, "OK", none, true, none⟩ : HttpResponse).contentDisposition
        = some "x.pdf") ∧
    ((handleSubmit ⟨none, none⟩ ⟨some "A", some "a@b.com", some "123"⟩ "x.html"
        (.respond ⟨true, "OK", none, true, none⟩)).download = some "x.pdf" ∧
     (handleSubmit ⟨none, none⟩ ⟨some "A", some "a@b.com", some "123"⟩ "x.html"
        (.respond ⟨true, "OK", none, true, none⟩)).formWasReset = true ∧
     (handleSubmit ⟨none, none⟩ ⟨some "A", some "a@b.com", some "123"⟩ "x.html"
        (.respond ⟨true, "OK", none, true, none⟩)).modalCloseDelayMs = some 800) := by
  have h := claim_C8 ⟨none, none⟩ ⟨some "A", some "a@b.com", some "123"⟩ "x.html"
    ⟨true, "OK", none, true, none⟩ "x.pdf" (by decide) (by decide) (by decide)
    rfl rfl (by decide)
  exact ⟨⟨by decide, by decide, by decide, by decide⟩, h.1, h.2.2.2.1, h.2.2.2.2⟩

end PdfSubmit
